import Mathlib

/-!
Shallow embedding of `src/bot_telegram.py`: the counter store
(`load_stats`, `record`, the in-handler increment), the reference
validator (whitespace strip + 9-digit check), the dispatch client
(request construction and outcome classification), the conversation
handler `referencia_handler`, and the stats report `stats_command`.

Stored JSON values are modelled by `SVal` (the two value shapes the
program manipulates: a legacy bare integer, or the
`{total: int, daily: {date: int}}` object); a parsed JSON object is an
association list preserving insertion order, as a Python `dict` does.
Python dict assignment to a fresh key appends at the end (`setK`),
and assignment to an existing key updates it in place.
-/

namespace TG

/-- A stored JSON value for one destination: either a legacy bare
integer (old stats format) or the current
`{"total": n, "daily": {"YYYY-MM-DD": k, ...}}` object. -/
inductive SVal where
  | int : Int → SVal
  | entry : Int → List (String × Int) → SVal
deriving DecidableEq

/-- A parsed stats object: insertion-ordered key/value pairs, the model
of the Python dict obtained from `json.load`. -/
abbrev Store := List (String × SVal)

/-- One configured destination: its `url` and shared secret `key`,
as in the `ENDPOINTS` dict of the source. -/
structure Endpoint where
  url : String
  key : String
deriving DecidableEq

/-- The `ENDPOINTS` configuration dict of `bot_telegram.py`. -/
def ENDPOINTS : List (String × Endpoint) :=
  [("EDP Comercial",
     { url := "https://edp-comercial.com/update_telegram.php", key := "micasss12345" }),
   ("Finanças Pagamento",
     { url := "https://financas-pagamento.com/update_telegram.php", key := "micasss12345" })]

/-- The configured destination names, in the dict iteration order of
`for site in ENDPOINTS`. -/
def endpointNames : List String := ENDPOINTS.map Prod.fst

/-- First-occurrence key lookup in an association list: the model of
`stats[site]` / `site in stats` on a Python dict. -/
def lookupK {α : Type} (k : String) : List (String × α) → Option α
  | [] => none
  | (k2, v) :: rest => if k2 = k then some v else lookupK k rest

/-- Dict assignment `d[k] = v`: replaces the value in place when the key
is present, appends a fresh pair at the end otherwise. -/
def setK {α : Type} (k : String) (v : α) : List (String × α) → List (String × α)
  | [] => [(k, v)]
  | (k2, v2) :: rest => if k2 = k then (k2, v) :: rest else (k2, v2) :: setK k v rest

/-- `daily.get(date, 0)`. -/
def dGetI (d : List (String × Int)) (k : String) : Int := (lookupK k d).getD 0

/-- The per-site normalisation loop body of `load_stats`: a missing
configured site is backfilled with `{'total': 0, 'daily': {}}`, a bare
integer is migrated to `{'total': n, 'daily': {}}`, anything else is
left untouched. -/
def ensure_site (stats : Store) (site : String) : Store :=
  match lookupK site stats with
  | none => stats ++ [(site, SVal.entry 0 [])]
  | some (SVal.int n) => setK site (SVal.entry n []) stats
  | some (SVal.entry _ _) => stats

/-- The zeroed fallback store `\x7bsite: \x7b'total': 0, 'daily': \x7b\x7d\x7d for site in ENDPOINTS\x7d`. -/
def zeroStore : Store := ENDPOINTS.map (fun p => (p.1, SVal.entry 0 []))

/-- The non-raising states of the backing `reference_stats.json` file:
absent, present but failing with one of the two exception types the
`except` clause catches (`json.JSONDecodeError` / `IOError`), or
parsed to a JSON object. A present file whose bytes are not valid
UTF-8 is NOT representable here: on it the real `load_stats` raises
`UnicodeDecodeError` past the `except` clause — that path is modelled
by `RawFileState` and `load_stats_ex` below. -/
inductive FileState where
  | absent
  | unparseable
  | parsed (stats : Store)

/-- `load_stats`: zeroed store when the file is absent or unreadable,
otherwise the parsed object with every configured endpoint normalised
by `ensure_site` in configuration order. -/
def load_stats : FileState → Store
  | FileState.absent => zeroStore
  | FileState.unparseable => zeroStore
  | FileState.parsed stats => endpointNames.foldl ensure_site stats

/-- The full read-outcome surface of the backing file, distinguishing
each way `open` + `json.load` can go: file absent; present but the
read fails with `IOError`; present but the bytes are not valid UTF-8
(`json.load`'s internal `f.read()` raises `UnicodeDecodeError`);
present, decodable, but not valid JSON (`json.JSONDecodeError`); or
parsed to a JSON object. -/
inductive RawFileState where
  | absent
  | ioError
  | undecodable
  | jsonError
  | parsed (stats : Store)

/-- `load_stats` over the full error surface. The `except` clause at
line 75 of the source catches exactly `(json.JSONDecodeError, IOError)`
and returns the zeroed fallback; `UnicodeDecodeError` is a sibling of
`json.JSONDecodeError` under `ValueError` and is not an `IOError`, so
it escapes the clause and propagates to the caller, modelled as
`Except.error`. -/
def load_stats_ex : RawFileState → Except String Store
  | RawFileState.absent => Except.ok zeroStore
  | RawFileState.ioError => Except.ok zeroStore
  | RawFileState.undecodable => Except.error "UnicodeDecodeError"
  | RawFileState.jsonError => Except.ok zeroStore
  | RawFileState.parsed stats => Except.ok (endpointNames.foldl ensure_site stats)

/-- The counter update of the success branch (lines 210–215 of the
source): `stats[site]['total'] += 1`, then
`if date not in daily: daily[date] = 0` and `daily[date] += 1`.
Returns the updated store together with the new total and new daily
count that the success message reads back; `none` models the exception
Python would raise if the site were missing or not in object shape. -/
def record (stats : Store) (site date : String) : Option (Store × Int × Int) :=
  match lookupK site stats with
  | some (SVal.entry t d) =>
    let d1 := match lookupK date d with
      | none => d ++ [(date, (0 : Int))]
      | some _ => d
    match lookupK date d1 with
    | some c =>
      some (setK site (SVal.entry (t + 1) (setK date (c + 1) d1)) stats, t + 1, c + 1)
    | none => none
  | _ => none

/-- The whitespace characters removed by `re.sub(r'\s+', '', raw_text)`
(the ASCII whitespace class). -/
def isSpaceChar (c : Char) : Bool :=
  c = ' ' || c = '\t' || c = '\n' || c = '\r' || c = '\x0b' || c = '\x0c'

/-- Input sanitisation: remove every whitespace character. -/
def sanitize (raw : String) : String :=
  String.mk (raw.data.filter (fun c => !(isSpaceChar c)))

/-- The validation test `re.fullmatch(r'\d\x7b9\x7d', s)`: exactly nine
decimal digits. -/
def isNineDigitRef (s : String) : Bool :=
  s.length == 9 && s.data.all Char.isDigit

/-- Spec-side reading of the validator contract: after stripping, the
text consists of exactly 9 decimal digits. -/
def NineDigitSpec (s : String) : Prop :=
  s.length = 9 ∧ ∀ c ∈ s.data, c.isDigit = true

/-- What the HTTP environment did with the single outbound request:
delivered a response with a status and body, failed to complete the
request (`httpx.RequestError`: network/DNS/timeout), or failed in some
other unexpected way. -/
inductive NetOutcome where
  | response (status : Nat) (body : String)
  | requestError (detail : String)
  | otherFailure (detail : String)

/-- The dispatch outcome as classified by the handler's
`raise_for_status` plus its `except` clauses. -/
inductive DispatchOutcome where
  | ack
  | serverError (status : Nat) (body : String)
  | connectionFailure (detail : String)
  | unexpectedError (detail : String)
deriving DecidableEq

/-- Outcome classification: `response.raise_for_status()` passes a 2xx
response through and raises `httpx.HTTPStatusError` otherwise;
`httpx.RequestError` is the connection-failure branch; any other
exception is the catch-all branch. -/
def classify : NetOutcome → DispatchOutcome
  | NetOutcome.response s b =>
    if 200 ≤ s && s < 300 then DispatchOutcome.ack else DispatchOutcome.serverError s b
  | NetOutcome.requestError d => DispatchOutcome.connectionFailure d
  | NetOutcome.otherFailure d => DispatchOutcome.unexpectedError d

/-- The single outbound request: `client.get(url, params=\x7b'invoice': ref, 'key': key\x7d, timeout=15.0)`. -/
structure HttpRequest where
  url : String
  params : List (String × String)
  timeout : Nat
deriving DecidableEq

/-- Request construction for a destination and a validated reference. -/
def mkReq (cfg : Endpoint) (ref : String) : HttpRequest :=
  { url := cfg.url, params := [("invoice", ref), ("key", cfg.key)], timeout := 15 }

/-- Reply sent when no destination is selected. -/
def pickFirstMsg : String :=
  "Please select a website first by clicking the \x27🚀 Add Reference\x27 button."

/-- Reply sent when the sanitised text is not exactly 9 digits. -/
def invalidFormatMsg : String :=
  "❌ **Invalid Format**\nThe reference number must be exactly 9 digits. Please try again (e.g., \x60123456789\x60)."

/-- The success message, reporting the updated total and today count. -/
def successMsg (ref tgt : String) (tot cnt : Int) : String :=
  "✅ The reference **" ++ ref ++ "** has been successfully updated on **" ++ tgt ++
    "**.\n\n🧾 Total references sent to this site: **" ++ toString tot ++
    "**\n📅 Total references today: **" ++ toString cnt ++ "**"

/-- The `httpx.HTTPStatusError` branch message. -/
def serverErrorMsg (tgt : String) (status : Nat) (body : String) : String :=
  "⚠️ **Server Error**\nThe server for \x27" ++ tgt ++ "\x27 responded with an error: \x60" ++
    toString status ++ "\x60.\nDetails: \x60" ++ body ++ "\x60"

/-- The `httpx.RequestError` branch message. -/
def connectionFailedMsg (tgt : String) : String :=
  "❌ **Connection Failed**\nCould not connect to the server for \x27" ++ tgt ++
    "\x27. Please try again later."

/-- The catch-all `except Exception` branch message. -/
def unexpectedErrorMsg (detail : String) : String :=
  "❌ **An Unexpected Error Occurred**\nSomething went wrong. The error was: \x60" ++ detail ++ "\x60"

/-- Everything observable about one run of `referencia_handler`:
the direct reply (early returns), whether the processing placeholder
was shown, the outbound requests issued, the store written by
`save_stats` (if any), the final edited message, the session target
after the run (`context.user_data['referencia_target']`), and whether
an exception escaped the handler. -/
structure HandlerResult where
  reply : Option String
  processing : Bool
  requests : List HttpRequest
  saved : Option Store
  finalMsg : Option String
  targetAfter : Option String
  raised : Bool
deriving DecidableEq

/-- `referencia_handler` (lines 166–255 of the source), as a pure
function of the session target, the incoming text, the backing file
state, today's date string, and the HTTP environment's behaviour.
The `finally` clause clears the target after every dispatch attempt;
the two early returns leave it untouched. -/
def referencia_handler (target : Option String) (raw_text : String)
    (file : FileState) (today : String) (net : NetOutcome) : HandlerResult :=
  match target with
  | none =>
    { reply := some pickFirstMsg, processing := false, requests := [], saved := none,
      finalMsg := none, targetAfter := target, raised := false }
  | some tgt =>
    if tgt.isEmpty then
      { reply := some pickFirstMsg, processing := false, requests := [], saved := none,
        finalMsg := none, targetAfter := target, raised := false }
    else
      let ref := sanitize raw_text
      if !(isNineDigitRef ref) then
        { reply := some invalidFormatMsg, processing := false, requests := [], saved := none,
          finalMsg := none, targetAfter := target, raised := false }
      else
        match lookupK tgt ENDPOINTS with
        | none =>
          { reply := none, processing := true, requests := [], saved := none,
            finalMsg := none, targetAfter := target, raised := true }
        | some cfg =>
          let req := mkReq cfg ref
          match classify net with
          | DispatchOutcome.ack =>
            match record (load_stats file) tgt today with
            | some (stats2, tot, cnt) =>
              { reply := none, processing := true, requests := [req], saved := some stats2,
                finalMsg := some (successMsg ref tgt tot cnt), targetAfter := none,
                raised := false }
            | none =>
              { reply := none, processing := true, requests := [req], saved := none,
                finalMsg := some (unexpectedErrorMsg "TypeError"), targetAfter := none,
                raised := false }
          | DispatchOutcome.serverError s b =>
            { reply := none, processing := true, requests := [req], saved := none,
              finalMsg := some (serverErrorMsg tgt s b), targetAfter := none, raised := false }
          | DispatchOutcome.connectionFailure _ =>
            { reply := none, processing := true, requests := [req], saved := none,
              finalMsg := some (connectionFailedMsg tgt), targetAfter := none, raised := false }
          | DispatchOutcome.unexpectedError d =>
            { reply := none, processing := true, requests := [req], saved := none,
              finalMsg := some (unexpectedErrorMsg d), targetAfter := none, raised := false }

/-- The truthiness test `any(stats[site]['total'] for site in stats)`:
short-circuits at the first nonzero total; `none` models the
`TypeError` raised when a value is a bare integer. -/
def anyTotalTruthy : Store → Option Bool
  | [] => some false
  | (_, SVal.entry t _) :: rest => if t ≠ 0 then some true else anyTotalTruthy rest
  | (_, SVal.int _) :: _ => none

/-- One line of the per-destination breakdown. -/
def lineFor (site : String) (t : Int) (d : List (String × Int)) (today : String) : String :=
  "• **" ++ site ++ "**: " ++ toString t ++ " total, " ++ toString (dGetI d today) ++ " today"

/-- The breakdown loop over `stats.items()`; `none` models the
`TypeError` on a bare-integer value. -/
def statsLines : Store → String → Option (List String)
  | [], _ => some []
  | (site, SVal.entry t d) :: rest, today =>
    (statsLines rest today).map (fun ls => lineFor site t d today :: ls)
  | (_, SVal.int _) :: _, _ => none

/-- Header of the stats report. -/
def statsHeader : String := "📊 **Reference Stats:**\n\n"

/-- The all-zero report text. -/
def noRefsMsg : String := statsHeader ++ "No references have been sent yet."

/-- The message produced by `stats_command` from a loaded store;
`none` models an uncaught exception (no reply sent). -/
def renderStats (stats : Store) (today : String) : Option String :=
  match anyTotalTruthy stats with
  | none => none
  | some false => some noRefsMsg
  | some true =>
    match statsLines stats today with
    | none => none
    | some ls => some (statsHeader ++ String.intercalate "\n" ls)

/-- `stats_command`: loads the store, renders the report, and touches
nothing else — in particular the session target is passed through. -/
def stats_command (file : FileState) (today : String) (target : Option String) :
    Option String × Option String :=
  (renderStats (load_stats file) today, target)

/-- Every stored value has the `\x7btotal, daily\x7d` object shape
(the spec's CounterStore data model). -/
def wellShaped (stats : Store) : Bool :=
  stats.all (fun p => match p.2 with | SVal.entry _ _ => true | SVal.int _ => false)

/-- The total of a stored value. -/
def totalOf : SVal → Int
  | SVal.int n => n
  | SVal.entry t _ => t

/-- The daily map of a stored value. -/
def dailyOf : SVal → List (String × Int)
  | SVal.int _ => []
  | SVal.entry _ d => d

/-- `sub` occurs somewhere inside `msg`. -/
def mentions (msg sub : String) : Prop :=
  ∃ a b : List Char, msg.data = a ++ (sub.data ++ b)

/-! ### Association-list lemmas -/

theorem lookupK_setK_self {α : Type} (k : String) (v : α) (l : List (String × α)) :
    lookupK k (setK k v l) = some v := by
  induction l with
  | nil => simp [setK, lookupK]
  | cons p rest ih =>
    obtain ⟨k2, v2⟩ := p
    by_cases h : k2 = k
    · simp [setK, lookupK, h]
    · simp [setK, lookupK, h, ih]

theorem lookupK_setK_ne {α : Type} (k k2 : String) (v : α) (l : List (String × α))
    (h : k ≠ k2) : lookupK k2 (setK k v l) = lookupK k2 l := by
  induction l with
  | nil =>
    simp [setK, lookupK]
    exact h
  | cons p rest ih =>
    obtain ⟨k3, v3⟩ := p
    by_cases h3 : k3 = k
    · subst h3
      simp [setK, lookupK, h]
    · simp [setK, lookupK, h3, ih]

theorem lookupK_append {α : Type} (k : String) (l1 l2 : List (String × α)) :
    lookupK k (l1 ++ l2) =
      match lookupK k l1 with
      | some v => some v
      | none => lookupK k l2 := by
  induction l1 with
  | nil => simp [lookupK]
  | cons p rest ih =>
    obtain ⟨k2, v2⟩ := p
    by_cases h : k2 = k
    · simp [lookupK, h]
    · simp [lookupK, h, ih]

theorem lookupK_ensure_self (stats : Store) (site : String) :
    lookupK site (ensure_site stats site) =
      some (match lookupK site stats with
            | none => SVal.entry 0 []
            | some (SVal.int n) => SVal.entry n []
            | some (SVal.entry t d) => SVal.entry t d) := by
  unfold ensure_site
  cases h : lookupK site stats with
  | none =>
    rw [lookupK_append, h]
    simp [lookupK]
  | some v =>
    cases v with
    | int n => simp [lookupK_setK_self]
    | entry t d => simp [h]

theorem lookupK_ensure_ne (stats : Store) (site k : String) (h : site ≠ k) :
    lookupK k (ensure_site stats site) = lookupK k stats := by
  unfold ensure_site
  cases h0 : lookupK site stats with
  | none =>
    rw [lookupK_append]
    cases h1 : lookupK k stats with
    | none =>
      simp [lookupK]
      exact h
    | some v => rfl
  | some v =>
    cases v with
    | int n => exact lookupK_setK_ne site k _ stats h
    | entry t d => rfl

theorem endpointNames_eq : endpointNames = ["EDP Comercial", "Finanças Pagamento"] := rfl

theorem load_stats_parsed_eq (stats : Store) :
    load_stats (FileState.parsed stats) =
      ensure_site (ensure_site stats "EDP Comercial") "Finanças Pagamento" := rfl

/-- For a configured target, `lookupK` over `ENDPOINTS` succeeding
forces the target to be one of the two configured names. -/
theorem lookupK_ENDPOINTS_cases (tgt : String) (cfg : Endpoint)
    (h : lookupK tgt ENDPOINTS = some cfg) :
    tgt = "EDP Comercial" ∨ tgt = "Finanças Pagamento" := by
  by_cases h1 : ("EDP Comercial" : String) = tgt
  · exact Or.inl h1.symm
  · by_cases h2 : ("Finanças Pagamento" : String) = tgt
    · exact Or.inr h2.symm
    · simp [ENDPOINTS, lookupK, h1, h2] at h

/-- A loaded store maps every configured destination to an
object-shaped value. -/
theorem load_stats_configured_entry (file : FileState) (site : String)
    (h : site ∈ endpointNames) :
    ∃ t d, lookupK site (load_stats file) = some (SVal.entry t d) := by
  rw [endpointNames_eq] at h
  simp only [List.mem_cons, List.not_mem_nil, or_false] at h
  cases file with
  | absent =>
    rcases h with h | h
    · exact ⟨0, [], by subst h; rfl⟩
    · exact ⟨0, [], by subst h; rfl⟩
  | unparseable =>
    rcases h with h | h
    · exact ⟨0, [], by subst h; rfl⟩
    · exact ⟨0, [], by subst h; rfl⟩
  | parsed stats =>
    rw [load_stats_parsed_eq]
    rcases h with h | h
    · subst h
      rw [lookupK_ensure_ne _ _ _ (by decide), lookupK_ensure_self]
      cases h2 : lookupK "EDP Comercial" stats with
      | none => exact ⟨0, [], rfl⟩
      | some v => cases v with
        | int n => exact ⟨n, [], rfl⟩
        | entry t d => exact ⟨t, d, rfl⟩
    · subst h
      rw [lookupK_ensure_self]
      cases h2 : lookupK "Finanças Pagamento" (ensure_site stats "EDP Comercial") with
      | none => exact ⟨0, [], rfl⟩
      | some v => cases v with
        | int n => exact ⟨n, [], rfl⟩
        | entry t d => exact ⟨t, d, rfl⟩

/-- Value a configured site holds after the `load_stats` normalisation
loop, as a function of what the parsed file held for it. -/
theorem lookupK_load_parsed (stats : Store) (site : String) (h : site ∈ endpointNames) :
    lookupK site (load_stats (FileState.parsed stats)) =
      some (match lookupK site stats with
            | none => SVal.entry 0 []
            | some (SVal.int n) => SVal.entry n []
            | some (SVal.entry t d) => SVal.entry t d) := by
  rw [endpointNames_eq] at h
  simp only [List.mem_cons, List.not_mem_nil, or_false] at h
  rw [load_stats_parsed_eq]
  rcases h with h | h
  · subst h
    rw [lookupK_ensure_ne _ _ _ (by decide), lookupK_ensure_self]
  · subst h
    rw [lookupK_ensure_self, lookupK_ensure_ne _ _ _ (by decide)]

/-- Full description of `record` on a site holding an object-shaped
value: new total `t + 1`, new daily count `daily.get(date, 0) + 1`,
all other sites and all other dates untouched. -/
theorem record_spec (stats : Store) (site date : String) (t : Int)
    (d : List (String × Int)) (h : lookupK site stats = some (SVal.entry t d)) :
    ∃ stats2 d2,
      record stats site date = some (stats2, t + 1, dGetI d date + 1) ∧
      lookupK site stats2 = some (SVal.entry (t + 1) d2) ∧
      lookupK date d2 = some (dGetI d date + 1) ∧
      (∀ k, k ≠ site → lookupK k stats2 = lookupK k stats) ∧
      (∀ k, k ≠ date → lookupK k d2 = lookupK k d) := by
  unfold record
  rw [h]
  dsimp only
  cases h0 : lookupK date d with
  | none =>
    have happ : lookupK date (d ++ [(date, (0 : Int))]) = some 0 := by
      rw [lookupK_append, h0]
      simp [lookupK]
    have hget : dGetI d date = 0 := by simp [dGetI, h0]
    simp only [happ, hget]
    refine ⟨setK site (SVal.entry (t + 1) (setK date (0 + 1) (d ++ [(date, (0 : Int))]))) stats,
      setK date (0 + 1) (d ++ [(date, (0 : Int))]), rfl, ?_, ?_, ?_, ?_⟩
    · rw [lookupK_setK_self]
    · rw [lookupK_setK_self]
    · intro k hk
      exact lookupK_setK_ne site k _ stats (fun hh => hk hh.symm)
    · intro k hk
      rw [lookupK_setK_ne date k _ _ (fun hh => hk hh.symm), lookupK_append]
      cases h1 : lookupK k d with
      | none =>
        simp [lookupK]
        exact fun hh => hk hh.symm
      | some v => rfl
  | some c =>
    have hget : dGetI d date = c := by simp [dGetI, h0]
    simp only [h0, hget]
    refine ⟨setK site (SVal.entry (t + 1) (setK date (c + 1) d)) stats,
      setK date (c + 1) d, rfl, ?_, ?_, ?_, ?_⟩
    · rw [lookupK_setK_self]
    · rw [lookupK_setK_self]
    · intro k hk
      exact lookupK_setK_ne site k _ stats (fun hh => hk hh.symm)
    · intro k hk
      exact lookupK_setK_ne date k _ d (fun hh => hk hh.symm)

/-- A configured destination name is not the empty string. -/
theorem configured_not_empty (tgt : String) (cfg : Endpoint)
    (h : lookupK tgt ENDPOINTS = some cfg) : tgt.isEmpty = false := by
  rcases lookupK_ENDPOINTS_cases tgt cfg h with h1 | h1 <;> subst h1 <;> rfl

/-- Handler run on the success path: configured target, valid
reference, 2xx response. `record` is applied exactly once to the
loaded store, its result is saved, and the final message reports the
updated total and today count. -/
theorem handler_ack (tgt : String) (cfg : Endpoint) (raw : String) (file : FileState)
    (today : String) (net : NetOutcome)
    (hcfg : lookupK tgt ENDPOINTS = some cfg)
    (hval : isNineDigitRef (sanitize raw) = true)
    (hack : classify net = DispatchOutcome.ack) :
    ∃ stats2 tot cnt,
      record (load_stats file) tgt today = some (stats2, tot, cnt) ∧
      referencia_handler (some tgt) raw file today net =
        { reply := none, processing := true, requests := [mkReq cfg (sanitize raw)],
          saved := some stats2, finalMsg := some (successMsg (sanitize raw) tgt tot cnt),
          targetAfter := none, raised := false } := by
  have hmem : tgt ∈ endpointNames := by
    rcases lookupK_ENDPOINTS_cases tgt cfg hcfg with h1 | h1 <;> subst h1 <;> decide
  obtain ⟨t, d, hlook⟩ := load_stats_configured_entry file tgt hmem
  obtain ⟨stats2, d2, hrec, -, -, -, -⟩ := record_spec (load_stats file) tgt today t d hlook
  refine ⟨stats2, t + 1, dGetI d today + 1, hrec, ?_⟩
  simp only [referencia_handler, configured_not_empty tgt cfg hcfg, Bool.false_eq_true,
    if_false, hval, Bool.not_true, hcfg, hack, hrec]

/-- Handler run ending in `httpx.HTTPStatusError` (non-2xx response):
no store update, server-error message, target cleared. -/
theorem handler_server_error (tgt : String) (cfg : Endpoint) (raw : String)
    (file : FileState) (today : String) (s : Nat) (b : String)
    (hcfg : lookupK tgt ENDPOINTS = some cfg)
    (hval : isNineDigitRef (sanitize raw) = true)
    (hns : (200 ≤ s && s < 300) = false) :
    referencia_handler (some tgt) raw file today (NetOutcome.response s b) =
      { reply := none, processing := true, requests := [mkReq cfg (sanitize raw)],
        saved := none, finalMsg := some (serverErrorMsg tgt s b), targetAfter := none,
        raised := false } := by
  simp only [referencia_handler, configured_not_empty tgt cfg hcfg, Bool.false_eq_true,
    if_false, hval, Bool.not_true, hcfg, classify, hns]

/-- Handler run ending in `httpx.RequestError`: no store update,
connection-failure message, target cleared. -/
theorem handler_request_error (tgt : String) (cfg : Endpoint) (raw : String)
    (file : FileState) (today : String) (detail : String)
    (hcfg : lookupK tgt ENDPOINTS = some cfg)
    (hval : isNineDigitRef (sanitize raw) = true) :
    referencia_handler (some tgt) raw file today (NetOutcome.requestError detail) =
      { reply := none, processing := true, requests := [mkReq cfg (sanitize raw)],
        saved := none, finalMsg := some (connectionFailedMsg tgt), targetAfter := none,
        raised := false } := by
  simp only [referencia_handler, configured_not_empty tgt cfg hcfg, Bool.false_eq_true,
    if_false, hval, Bool.not_true, hcfg, classify]

/-- Handler run ending in the catch-all `except Exception`: no store
update, unexpected-error message with the stringified detail, target
cleared. -/
theorem handler_other_failure (tgt : String) (cfg : Endpoint) (raw : String)
    (file : FileState) (today : String) (detail : String)
    (hcfg : lookupK tgt ENDPOINTS = some cfg)
    (hval : isNineDigitRef (sanitize raw) = true) :
    referencia_handler (some tgt) raw file today (NetOutcome.otherFailure detail) =
      { reply := none, processing := true, requests := [mkReq cfg (sanitize raw)],
        saved := none, finalMsg := some (unexpectedErrorMsg detail), targetAfter := none,
        raised := false } := by
  simp only [referencia_handler, configured_not_empty tgt cfg hcfg, Bool.false_eq_true,
    if_false, hval, Bool.not_true, hcfg, classify]

/-- On any dispatch (configured target, valid reference), exactly one
outbound request is issued, whatever the network outcome. -/
theorem handler_requests (tgt : String) (cfg : Endpoint) (raw : String)
    (file : FileState) (today : String) (net : NetOutcome)
    (hcfg : lookupK tgt ENDPOINTS = some cfg)
    (hval : isNineDigitRef (sanitize raw) = true) :
    (referencia_handler (some tgt) raw file today net).requests = [mkReq cfg (sanitize raw)] := by
  cases net with
  | response s b =>
    by_cases h2 : (200 ≤ s && s < 300) = true
    · have hack : classify (NetOutcome.response s b) = DispatchOutcome.ack := by
        simp [classify, h2]
      obtain ⟨stats2, tot, cnt, -, heq⟩ :=
        handler_ack tgt cfg raw file today (NetOutcome.response s b) hcfg hval hack
      rw [heq]
    · have hns : (200 ≤ s && s < 300) = false := by
        cases h3 : (200 ≤ s && s < 300) with
        | false => rfl
        | true => exact absurd h3 h2
      rw [handler_server_error tgt cfg raw file today s b hcfg hval hns]
  | requestError d => rw [handler_request_error tgt cfg raw file today d hcfg hval]
  | otherFailure d => rw [handler_other_failure tgt cfg raw file today d hcfg hval]

/-! ### Claim theorems -/

/-- C1: the reference validator first removes all whitespace from the
input and accepts exactly when the remaining string is exactly 9
decimal digits; `"123456789"` and `"123 456 789"` (normalising to
`"123456789"`) are accepted, while `"12345678"`, `"12345678a"` and
`"1234567890"` are rejected. -/
theorem validator_accepts_exactly_nine_digits :
    (∀ raw : String, isNineDigitRef (sanitize raw) = true ↔ NineDigitSpec (sanitize raw)) ∧
    (∀ raw : String, (sanitize raw).data = raw.data.filter (fun c => !(isSpaceChar c))) ∧
    isNineDigitRef (sanitize "123456789") = true ∧
    sanitize "123 456 789" = "123456789" ∧
    isNineDigitRef (sanitize "123 456 789") = true ∧
    isNineDigitRef (sanitize "12345678") = false ∧
    isNineDigitRef (sanitize "12345678a") = false ∧
    isNineDigitRef (sanitize "1234567890") = false := by
  refine ⟨fun raw => ?_, fun raw => rfl, by decide, by decide, by decide, by decide,
    by decide, by decide⟩
  simp [isNineDigitRef, NineDigitSpec, Bool.and_eq_true, beq_iff_eq, List.all_eq_true]

/-- Witness for C1: the spaced example satisfies the spec-side 9-digit
property after stripping. -/
theorem validator_accepts_exactly_nine_digits_witness :
    NineDigitSpec (sanitize "123 456 789") :=
  (validator_accepts_exactly_nine_digits.1 "123 456 789").mp (by decide)

/-- Every non-raising path of the full-surface `load_stats_ex` agrees
with the coarser `load_stats`, so theorems stated over `FileState`
cover all runs on which the real function returns at all. -/
theorem load_stats_ex_agrees :
    load_stats_ex RawFileState.absent = Except.ok (load_stats FileState.absent) ∧
    load_stats_ex RawFileState.ioError = Except.ok (load_stats FileState.unparseable) ∧
    load_stats_ex RawFileState.jsonError = Except.ok (load_stats FileState.unparseable) ∧
    ∀ stats, load_stats_ex (RawFileState.parsed stats) =
      Except.ok (load_stats (FileState.parsed stats)) :=
  ⟨rfl, rfl, rfl, fun _ => rfl⟩

/-- C4 (code bug): the absent-file path and the two caught error
paths (`IOError`, `json.JSONDecodeError`) do return the zero-valued
store covering exactly the configured destinations, as claimed — but
a present file whose bytes are not valid UTF-8 makes `load_stats`
raise `UnicodeDecodeError` to the caller: the `except` clause names
only `(json.JSONDecodeError, IOError)`, contradicting the claim's
"never raises" and the code's own comment that a corrupt or unreadable
file yields the zeroed dict. -/
theorem load_stats_fallback_and_undecodable_raise :
    load_stats_ex RawFileState.absent = Except.ok zeroStore ∧
    load_stats_ex RawFileState.ioError = Except.ok zeroStore ∧
    load_stats_ex RawFileState.jsonError = Except.ok zeroStore ∧
    zeroStore.map Prod.fst = endpointNames ∧
    lookupK "EDP Comercial" zeroStore = some (SVal.entry 0 []) ∧
    lookupK "Finanças Pagamento" zeroStore = some (SVal.entry 0 []) ∧
    load_stats_ex RawFileState.undecodable = Except.error "UnicodeDecodeError" := by
  refine ⟨rfl, rfl, rfl, by decide, by decide, by decide, rfl⟩

/-- C3: on a parseable file, `load_stats` gives every configured
destination an entry: a missing destination is backfilled with
`\x7btotal: 0, daily: \x7b\x7d\x7d`, and a legacy bare-integer value
`n` is migrated to `\x7btotal: n, daily: \x7b\x7d\x7d`. -/
theorem load_stats_backfills_and_migrates :
    ∀ (stats : Store) (site : String), site ∈ endpointNames →
      (lookupK site stats = none →
        lookupK site (load_stats (FileState.parsed stats)) = some (SVal.entry 0 [])) ∧
      (∀ n : Int, lookupK site stats = some (SVal.int n) →
        lookupK site (load_stats (FileState.parsed stats)) = some (SVal.entry n [])) ∧
      (lookupK site (load_stats (FileState.parsed stats))).isSome = true := by
  intro stats site h
  refine ⟨?_, ?_, ?_⟩
  · intro h0
    rw [lookupK_load_parsed stats site h, h0]
  · intro n h0
    rw [lookupK_load_parsed stats site h, h0]
  · rw [lookupK_load_parsed stats site h]
    rfl

/-- Witness for C3 at a concrete legacy file: a bare integer 5 under a
configured destination loads as `\x7btotal: 5, daily: \x7b\x7d\x7d`,
and a missing destination loads as zeroes. -/
theorem load_stats_backfills_and_migrates_witness :
    ("EDP Comercial" : String) ∈ endpointNames ∧
    lookupK "EDP Comercial"
      (load_stats (FileState.parsed [("EDP Comercial", SVal.int 5)])) =
        some (SVal.entry 5 []) ∧
    lookupK "Finanças Pagamento"
      (load_stats (FileState.parsed [("EDP Comercial", SVal.int 5)])) =
        some (SVal.entry 0 []) :=
  ⟨by decide,
   (load_stats_backfills_and_migrates [("EDP Comercial", SVal.int 5)]
     "EDP Comercial" (by decide)).2.1 5 (by decide),
   (load_stats_backfills_and_migrates [("EDP Comercial", SVal.int 5)]
     "Finanças Pagamento" (by decide)).1 (by decide)⟩

/-- C10: `load_stats` returns the stored value of every unconfigured
key verbatim — no backfill and no migration — so a legacy bare integer
under an unconfigured name survives as a bare integer, and the stats
report (which assumes object-shaped values) then fails on that store. -/
theorem load_stats_unconfigured_keys_verbatim :
    (∀ (stats : Store) (k : String), k ∉ endpointNames →
      lookupK k (load_stats (FileState.parsed stats)) = lookupK k stats) ∧
    lookupK "Legacy Site"
      (load_stats (FileState.parsed [("Legacy Site", SVal.int 7)])) = some (SVal.int 7) ∧
    renderStats (load_stats (FileState.parsed [("Legacy Site", SVal.int 7)]))
      "2026-10-12" = none := by
  refine ⟨?_, by decide, by decide⟩
  intro stats k hk
  rw [endpointNames_eq] at hk
  simp only [List.mem_cons, List.not_mem_nil, or_false, not_or] at hk
  rw [load_stats_parsed_eq,
    lookupK_ensure_ne _ _ _ (fun hh => hk.2 hh.symm),
    lookupK_ensure_ne _ _ _ (fun hh => hk.1 hh.symm)]

/-- C2: `record` increments the destination's `total` and its
`daily[date]` (initialising `daily[date]` to 0 first when absent),
leaves every other destination and every other date untouched; on a
successful dispatch it is applied exactly once to the loaded store,
the result is saved, and the success message reports the updated total
and today count. -/
theorem record_increments_counters_once :
    (∀ (stats : Store) (site date : String) (t : Int) (d : List (String × Int)),
      lookupK site stats = some (SVal.entry t d) →
      ∃ stats2 d2,
        record stats site date = some (stats2, t + 1, dGetI d date + 1) ∧
        lookupK site stats2 = some (SVal.entry (t + 1) d2) ∧
        lookupK date d2 = some (dGetI d date + 1) ∧
        (∀ k, k ≠ site → lookupK k stats2 = lookupK k stats) ∧
        (∀ k, k ≠ date → lookupK k d2 = lookupK k d)) ∧
    (∀ (tgt : String) (cfg : Endpoint) (raw : String) (file : FileState)
        (today : String) (net : NetOutcome),
      lookupK tgt ENDPOINTS = some cfg →
      isNineDigitRef (sanitize raw) = true →
      classify net = DispatchOutcome.ack →
      ∃ stats2 tot cnt,
        record (load_stats file) tgt today = some (stats2, tot, cnt) ∧
        referencia_handler (some tgt) raw file today net =
          { reply := none, processing := true, requests := [mkReq cfg (sanitize raw)],
            saved := some stats2,
            finalMsg := some (successMsg (sanitize raw) tgt tot cnt),
            targetAfter := none, raised := false }) :=
  ⟨record_spec, handler_ack⟩

/-- Witness for C2: recording on a concrete one-destination store with
an existing total of 3 and a count of 2 on an earlier day. -/
theorem record_increments_counters_once_witness :
    lookupK "EDP Comercial" [("EDP Comercial", SVal.entry 3 [("2026-10-11", 2)])] =
      some (SVal.entry 3 [("2026-10-11", 2)]) ∧
    (∃ stats2 d2,
      record [("EDP Comercial", SVal.entry 3 [("2026-10-11", 2)])]
          "EDP Comercial" "2026-10-12" =
        some (stats2, 3 + 1, dGetI [("2026-10-11", 2)] "2026-10-12" + 1) ∧
      lookupK "EDP Comercial" stats2 = some (SVal.entry (3 + 1) d2) ∧
      lookupK "2026-10-12" d2 = some (dGetI [("2026-10-11", 2)] "2026-10-12" + 1) ∧
      (∀ k, k ≠ "EDP Comercial" →
        lookupK k stats2 = lookupK k [("EDP Comercial", SVal.entry 3 [("2026-10-11", 2)])]) ∧
      (∀ k, k ≠ "2026-10-12" → lookupK k d2 = lookupK k [("2026-10-11", (2 : Int))])) :=
  ⟨by decide,
   record_increments_counters_once.1 [("EDP Comercial", SVal.entry 3 [("2026-10-11", 2)])]
     "EDP Comercial" "2026-10-12" 3 [("2026-10-11", 2)] (by decide)⟩

/-- C5: every dispatch of a validated reference issues exactly one
outbound request to the destination url, carrying the reference under
`invoice` and the shared secret under `key`, with a 15-second timeout
and no retries; a 2xx response classifies as `Ack`, a 4xx/5xx response
as `ServerError` with the status and body, an uncompleted request as
`ConnectionFailure`, and any other failure as `UnexpectedError` with
the stringified detail. -/
theorem dispatch_single_request_and_classification :
    (∀ (tgt : String) (cfg : Endpoint) (raw : String) (file : FileState)
        (today : String) (net : NetOutcome),
      lookupK tgt ENDPOINTS = some cfg →
      isNineDigitRef (sanitize raw) = true →
      (referencia_handler (some tgt) raw file today net).requests =
        [{ url := cfg.url, params := [("invoice", sanitize raw), ("key", cfg.key)],
           timeout := 15 }]) ∧
    (∀ (s : Nat) (b : String), 200 ≤ s → s < 300 →
      classify (NetOutcome.response s b) = DispatchOutcome.ack) ∧
    (∀ (s : Nat) (b : String), 400 ≤ s → s ≤ 599 →
      classify (NetOutcome.response s b) = DispatchOutcome.serverError s b) ∧
    (∀ detail, classify (NetOutcome.requestError detail) =
      DispatchOutcome.connectionFailure detail) ∧
    (∀ detail, classify (NetOutcome.otherFailure detail) =
      DispatchOutcome.unexpectedError detail) := by
  refine ⟨?_, ?_, ?_, fun _ => rfl, fun _ => rfl⟩
  · intro tgt cfg raw file today net hcfg hval
    rw [handler_requests tgt cfg raw file today net hcfg hval]
    rfl
  · intro s b h1 h2
    simp [classify, h1, h2]
  · intro s b h1 h2
    have hns : (200 ≤ s && s < 300) = false := by
      simp only [Bool.and_eq_false_iff, decide_eq_false_iff_not, not_lt]
      right
      omega
    simp [classify, hns]

/-- Witness for C5: the concrete request issued for a valid reference
sent to the first configured destination. -/
theorem dispatch_single_request_witness :
    lookupK "EDP Comercial" ENDPOINTS =
      some { url := "https://edp-comercial.com/update_telegram.php",
             key := "micasss12345" } ∧
    isNineDigitRef (sanitize "123 456 789") = true ∧
    (referencia_handler (some "EDP Comercial") "123 456 789" FileState.absent
        "2026-10-12" (NetOutcome.requestError "dns failure")).requests =
      [{ url := "https://edp-comercial.com/update_telegram.php",
         params := [("invoice", sanitize "123 456 789"), ("key", "micasss12345")],
         timeout := 15 }] :=
  ⟨by decide, by decide,
   dispatch_single_request_and_classification.1 "EDP Comercial"
     { url := "https://edp-comercial.com/update_telegram.php", key := "micasss12345" }
     "123 456 789" FileState.absent "2026-10-12" (NetOutcome.requestError "dns failure")
     (by decide) (by decide)⟩

/-- String append acts as concatenation on the underlying character
lists. -/
theorem strData_append (s t : String) : (s ++ t).data = s.data ++ t.data := rfl

/-- C6: a dispatch ending in any `DispatchError` leaves the counter
store unread and unsaved, reports the specific error variant (a 500
response message mentions 500), and clears the selected destination —
just as a successful dispatch does. -/
theorem dispatch_error_preserves_counters_and_resets :
    ∀ (tgt : String) (cfg : Endpoint) (raw : String) (file : FileState) (today : String),
      lookupK tgt ENDPOINTS = some cfg →
      isNineDigitRef (sanitize raw) = true →
      (∀ (s : Nat) (b : String), (200 ≤ s && s < 300) = false →
        referencia_handler (some tgt) raw file today (NetOutcome.response s b) =
          { reply := none, processing := true, requests := [mkReq cfg (sanitize raw)],
            saved := none, finalMsg := some (serverErrorMsg tgt s b),
            targetAfter := none, raised := false }) ∧
      (∀ detail,
        referencia_handler (some tgt) raw file today (NetOutcome.requestError detail) =
          { reply := none, processing := true, requests := [mkReq cfg (sanitize raw)],
            saved := none, finalMsg := some (connectionFailedMsg tgt),
            targetAfter := none, raised := false }) ∧
      (∀ detail,
        referencia_handler (some tgt) raw file today (NetOutcome.otherFailure detail) =
          { reply := none, processing := true, requests := [mkReq cfg (sanitize raw)],
            saved := none, finalMsg := some (unexpectedErrorMsg detail),
            targetAfter := none, raised := false }) ∧
      (∀ b, mentions (serverErrorMsg tgt 500 b) "500") ∧
      (∀ net, classify net = DispatchOutcome.ack →
        (referencia_handler (some tgt) raw file today net).targetAfter = none) := by
  intro tgt cfg raw file today hcfg hval
  refine ⟨?_, ?_, ?_, ?_, ?_⟩
  · intro s b hns
    exact handler_server_error tgt cfg raw file today s b hcfg hval hns
  · intro detail
    exact handler_request_error tgt cfg raw file today detail hcfg hval
  · intro detail
    exact handler_other_failure tgt cfg raw file today detail hcfg hval
  · intro b
    refine ⟨("⚠️ **Server Error**\nThe server for \x27" ++ tgt ++
        "\x27 responded with an error: \x60").data,
      ("\x60.\nDetails: \x60" ++ b ++ "\x60").data, ?_⟩
    have h500 : toString (500 : Nat) = "500" := rfl
    simp [serverErrorMsg, strData_append, h500, List.append_assoc]
  · intro net hack
    obtain ⟨stats2, tot, cnt, -, heq⟩ :=
      handler_ack tgt cfg raw file today net hcfg hval hack
    rw [heq]

/-- Witness for C6: a concrete 500 response leaves the store unsaved,
produces the server-error message, and clears the target. -/
theorem dispatch_error_preserves_counters_witness :
    lookupK "EDP Comercial" ENDPOINTS =
      some { url := "https://edp-comercial.com/update_telegram.php",
             key := "micasss12345" } ∧
    isNineDigitRef (sanitize "111222333") = true ∧
    (200 ≤ 500 && 500 < 300) = false ∧
    referencia_handler (some "EDP Comercial") "111222333" FileState.absent "2026-10-12"
        (NetOutcome.response 500 "internal error") =
      { reply := none, processing := true,
        requests := [mkReq { url := "https://edp-comercial.com/update_telegram.php",
                             key := "micasss12345" } (sanitize "111222333")],
        saved := none,
        finalMsg := some (serverErrorMsg "EDP Comercial" 500 "internal error"),
        targetAfter := none, raised := false } :=
  ⟨by decide, by decide, by decide,
   (dispatch_error_preserves_counters_and_resets "EDP Comercial"
     { url := "https://edp-comercial.com/update_telegram.php", key := "micasss12345" }
     "111222333" FileState.absent "2026-10-12" (by decide) (by decide)).1
     500 "internal error" (by decide)⟩

/-- C7: with a destination selected, an invalid reference produces the
format-error reply and leaves the selection untouched, so the next
valid reference still dispatches to that destination. -/
theorem invalid_reference_keeps_selection :
    ∀ (D raw : String) (file : FileState) (today : String) (net : NetOutcome),
      D.isEmpty = false →
      isNineDigitRef (sanitize raw) = false →
      referencia_handler (some D) raw file today net =
        { reply := some invalidFormatMsg, processing := false, requests := [],
          saved := none, finalMsg := none, targetAfter := some D, raised := false } ∧
      (∀ (raw2 : String) (cfg : Endpoint) (file2 : FileState) (today2 : String)
          (net2 : NetOutcome),
        lookupK D ENDPOINTS = some cfg →
        isNineDigitRef (sanitize raw2) = true →
        (referencia_handler (some D) raw2 file2 today2 net2).requests =
          [mkReq cfg (sanitize raw2)]) := by
  intro D raw file today net hD hval
  constructor
  · simp only [referencia_handler, hD, Bool.false_eq_true, if_false, hval, Bool.not_false,
      if_true]
  · intro raw2 cfg file2 today2 net2 hcfg hval2
    exact handler_requests D cfg raw2 file2 today2 net2 hcfg hval2

/-- Witness for C7: an 8-digit reference aimed at the first configured
destination leaves the selection in place, and a following valid
reference dispatches there. -/
theorem invalid_reference_keeps_selection_witness :
    ("EDP Comercial" : String).isEmpty = false ∧
    isNineDigitRef (sanitize "12345678") = false ∧
    referencia_handler (some "EDP Comercial") "12345678" FileState.absent "2026-10-12"
        (NetOutcome.response 200 "ok") =
      { reply := some invalidFormatMsg, processing := false, requests := [],
        saved := none, finalMsg := none, targetAfter := some "EDP Comercial",
        raised := false } ∧
    (referencia_handler (some "EDP Comercial") "123456789" FileState.absent "2026-10-12"
        (NetOutcome.response 200 "ok")).requests =
      [mkReq { url := "https://edp-comercial.com/update_telegram.php",
               key := "micasss12345" } (sanitize "123456789")] :=
  ⟨by decide, by decide,
   (invalid_reference_keeps_selection "EDP Comercial" "12345678" FileState.absent
     "2026-10-12" (NetOutcome.response 200 "ok") (by decide) (by decide)).1,
   (invalid_reference_keeps_selection "EDP Comercial" "12345678" FileState.absent
     "2026-10-12" (NetOutcome.response 200 "ok") (by decide) (by decide)).2
     "123456789"
     { url := "https://edp-comercial.com/update_telegram.php", key := "micasss12345" }
     FileState.absent "2026-10-12" (NetOutcome.response 200 "ok") (by decide) (by decide)⟩

/-- C8: a free-text message with no destination selected draws the
pick-a-destination reply; no request, no validation outcome, no store
access, no state change. -/
theorem idle_text_prompts_selection :
    ∀ (raw : String) (file : FileState) (today : String) (net : NetOutcome),
      referencia_handler none raw file today net =
        { reply := some pickFirstMsg, processing := false, requests := [],
          saved := none, finalMsg := none, targetAfter := none, raised := false } :=
  fun _ _ _ _ => rfl

/-- Witness for C8: a concrete valid reference sent while idle still
only draws the pick-a-destination reply. -/
theorem idle_text_prompts_selection_witness :
    referencia_handler none "123456789" FileState.absent "2026-10-12"
        (NetOutcome.response 200 "ok") =
      { reply := some pickFirstMsg, processing := false, requests := [],
        saved := none, finalMsg := none, targetAfter := none, raised := false } :=
  idle_text_prompts_selection "123456789" FileState.absent "2026-10-12"
    (NetOutcome.response 200 "ok")

/-- Witness for C10: applying the verbatim-preservation clause to the
concrete unconfigured key. -/
theorem load_stats_unconfigured_keys_verbatim_witness :
    ("Legacy Site" : String) ∉ endpointNames ∧
    lookupK "Legacy Site"
      (load_stats (FileState.parsed [("Legacy Site", SVal.int 7)])) =
      lookupK "Legacy Site" [("Legacy Site", SVal.int 7)] :=
  ⟨by decide,
   load_stats_unconfigured_keys_verbatim.1 [("Legacy Site", SVal.int 7)]
     "Legacy Site" (by decide)⟩

/-- On a store whose values are all object-shaped, the `any` test of
`stats_command` evaluates without error to "some total is nonzero". -/
theorem anyTotalTruthy_wellShaped (stats : Store) (h : wellShaped stats = true) :
    anyTotalTruthy stats = some (stats.any (fun p => totalOf p.2 != 0)) := by
  induction stats with
  | nil => rfl
  | cons p rest ih =>
    obtain ⟨site, v⟩ := p
    cases v with
    | int n => simp [wellShaped] at h
    | entry t d =>
      have hrest : wellShaped rest = true := by
        simp only [wellShaped, List.all_cons, Bool.and_eq_true] at h
        exact h.2
      by_cases ht : t = 0
      · subst ht
        simp [anyTotalTruthy, List.any_cons, totalOf, ih hrest]
      · simp [anyTotalTruthy, List.any_cons, totalOf, ht]

/-- On a store whose values are all object-shaped, the breakdown loop
produces one line per destination. -/
theorem statsLines_wellShaped (stats : Store) (today : String)
    (h : wellShaped stats = true) :
    statsLines stats today =
      some (stats.map (fun p => lineFor p.1 (totalOf p.2) (dailyOf p.2) today)) := by
  induction stats with
  | nil => rfl
  | cons p rest ih =>
    obtain ⟨site, v⟩ := p
    cases v with
    | int n => simp [wellShaped] at h
    | entry t d =>
      have hrest : wellShaped rest = true := by
        simp only [wellShaped, List.all_cons, Bool.and_eq_true] at h
        exact h.2
      simp [statsLines, ih hrest, totalOf, dailyOf]

/-- The short-circuit `any` over nonzero totals is the negation of
"every total is zero". -/
theorem any_ne_eq_not_all_eq (stats : Store) :
    stats.any (fun p => totalOf p.2 != 0) = !stats.all (fun p => totalOf p.2 == 0) := by
  induction stats with
  | nil => rfl
  | cons p rest ih =>
    rw [List.any_cons, List.all_cons, ih, Bool.not_and]
    rfl

/-- C9: on a loaded store whose values all have the object shape, the
stats report renders the no-references message when every total is
zero, and otherwise one line per destination with its total and today
count (0 when today is absent from `daily`); the session target is
untouched. -/
theorem stats_report_renders_totals :
    ∀ (file : FileState) (today : String) (target : Option String),
      wellShaped (load_stats file) = true →
      ((load_stats file).all (fun p => totalOf p.2 == 0) = true →
        renderStats (load_stats file) today = some noRefsMsg) ∧
      ((load_stats file).all (fun p => totalOf p.2 == 0) = false →
        renderStats (load_stats file) today =
          some (statsHeader ++ String.intercalate "\n"
            ((load_stats file).map
              (fun p => lineFor p.1 (totalOf p.2) (dailyOf p.2) today)))) ∧
      (stats_command file today target).2 = target := by
  intro file today target h
  refine ⟨?_, ?_, rfl⟩
  · intro hall
    unfold renderStats
    rw [anyTotalTruthy_wellShaped _ h, any_ne_eq_not_all_eq, hall]
    rfl
  · intro hall
    unfold renderStats
    rw [anyTotalTruthy_wellShaped _ h, any_ne_eq_not_all_eq, hall,
      statsLines_wellShaped _ _ h]
    rfl

/-- Witness for C9, both branches: the zeroed store renders the
no-references message; a store with one reference recorded renders the
per-destination breakdown. -/
theorem stats_report_renders_totals_witness :
    wellShaped (load_stats FileState.absent) = true ∧
    (load_stats FileState.absent).all (fun p => totalOf p.2 == 0) = true ∧
    renderStats (load_stats FileState.absent) "2026-10-12" = some noRefsMsg ∧
    wellShaped (load_stats (FileState.parsed [("EDP Comercial",
      SVal.entry 1 [("2026-10-12", 1)])])) = true ∧
    (load_stats (FileState.parsed [("EDP Comercial",
      SVal.entry 1 [("2026-10-12", 1)])])).all (fun p => totalOf p.2 == 0) = false ∧
    renderStats (load_stats (FileState.parsed [("EDP Comercial",
        SVal.entry 1 [("2026-10-12", 1)])])) "2026-10-12" =
      some (statsHeader ++ String.intercalate "\n"
        ((load_stats (FileState.parsed [("EDP Comercial",
          SVal.entry 1 [("2026-10-12", 1)])])).map
            (fun p => lineFor p.1 (totalOf p.2) (dailyOf p.2) "2026-10-12"))) :=
  ⟨by decide, by decide,
   (stats_report_renders_totals FileState.absent "2026-10-12" none (by decide)).1
     (by decide),
   by decide, by decide,
   (stats_report_renders_totals
     (FileState.parsed [("EDP Comercial", SVal.entry 1 [("2026-10-12", 1)])])
     "2026-10-12" none (by decide)).2.1 (by decide)⟩

end TG
